import Mathlib

/-!
Verification development for the stripe-functions repository: a set of
serverless handlers (checkout-session creator, session retriever,
payment-event webhook receiver) glued to an external payment processor
and an email API. The definitions below are a shallow embedding of the
JavaScript sources under src/; external SDK calls (Stripe, Resend) are
modelled as explicit function parameters returning Except values, and
observable side effects are collected in an effect list.
-/

namespace StripeFunctions

/-! ## JavaScript value model

Cart lines arrive as untrusted JSON, so a quantity field can be a number,
a string, null, undefined, or NaN. We model exactly the value shapes the
handlers distinguish. Only integer numbers are needed (all monetary code
in the repository is integer minor-unit arithmetic); NaN is a separate
constructor because parseInt and Math.max propagate it. -/

inductive JSVal : Type where
  | num (n : Int)
  | nan
  | str (s : String)
  | undefined
  | null
deriving DecidableEq, Repr

/-- Truthiness of a JS value: 0, NaN, the empty string, null and
undefined are falsy; every other modelled value is truthy. -/
def jsTruthy : JSVal → Bool
  | .num n => n != 0
  | .nan => false
  | .str s => s != ""
  | .undefined => false
  | .null => false

/-- Leading digit run of a character list. -/
def takeDigits (cs : List Char) : List Char := cs.takeWhile (fun c => c.isDigit)

/-- Value of a digit list, most significant first. -/
def digitsToNat (cs : List Char) : Nat := cs.foldl (fun a c => a * 10 + (c.toNat - 48)) 0

/-- Embedding of parseInt(s, 10) on a string: skip leading whitespace,
accept an optional sign, read the leading digit run; NaN (modelled as
none) when no digit is found. -/
def parseIntStr (s : String) : Option Int :=
  let cs := s.data.dropWhile (fun c => c = ' ' ∨ c = '\t' ∨ c = '\n' ∨ c = '\r')
  match cs with
  | '-' :: rest =>
    let ds := takeDigits rest
    if ds.isEmpty then none else some (-(digitsToNat ds : Int))
  | '+' :: rest =>
    let ds := takeDigits rest
    if ds.isEmpty then none else some ((digitsToNat ds : Int))
  | _ =>
    let ds := takeDigits cs
    if ds.isEmpty then none else some ((digitsToNat ds : Int))

/-- Embedding of parseInt(v, 10) on an arbitrary JS value: numbers parse
to themselves (via their decimal rendering), strings parse via
parseIntStr, and NaN, null and undefined render as non-numeric strings,
hence parse to NaN (none). -/
def jsParseInt : JSVal → Option Int
  | .num n => some n
  | .nan => none
  | .str s => parseIntStr s
  | .undefined => none
  | .null => none

/-- Embedding of the quantity computation in create-checkout.js line 89:
Math.max(1, parseInt(it.quantity || 1, 10)). The || 1 replaces a falsy
quantity by the number 1; Math.max propagates NaN, so a truthy value
that does not parse yields NaN (none). -/
def clampQty (q : JSVal) : Option Int :=
  match jsParseInt (if jsTruthy q then q else .num 1) with
  | some n => some (max 1 n)
  | none => none

/-! ## String helpers shared by the handlers -/

/-- Last n characters of a string, embedding s.slice(-n) (the whole
string when it is shorter than n, as in JavaScript). -/
def lastChars (n : Nat) (s : String) : String :=
  String.mk (s.data.drop (s.length - n))

/-- ASCII uppercasing of a string, embedding toUpperCase() (every order
reference and country code in this code base is ASCII). Defined by a
plain map over the characters so that concrete instances evaluate inside
the kernel. -/
def jsToUpper (s : String) : String := String.mk (s.data.map Char.toUpper)

/-- Embedding of base.replace(a single trailing slash removed). -/
def dropTrailingSlash (s : String) : String :=
  if s.endsWith "/" then s.dropRight 1 else s

/-- Embedding of img.replace(a single leading slash removed). -/
def dropLeadingSlash (s : String) : String :=
  if s.startsWith "/" then s.drop 1 else s

/-- Removal of every leading slash, as in the basePath normalisation. -/
def dropLeadingSlashes (s : String) : String :=
  String.mk (s.data.dropWhile (fun c => c = '/'))

/-- Removal of every trailing slash, as in the basePath normalisation. -/
def dropTrailingSlashes (s : String) : String :=
  String.mk ((s.data.reverse.dropWhile (fun c => c = '/')).reverse)

/-- Case-insensitive test for an absolute http or https URL, embedding
the regular-expression test in absolutizeImage. -/
def isHttpUrl (s : String) : Bool :=
  let l := s.toLower
  l.startsWith "http://" || l.startsWith "https://"

/-! ## Server-side catalog (create-checkout.js lines 36 to 43) -/

structure Product where
  name : String
  unit_amount : Int
deriving DecidableEq, Repr

/-- Currency used for every line item. -/
def CURRENCY : String := "gbp"

/-- Embedding of the CATALOG lookup table (GBP, pence). -/
def CATALOG : String → Option Product
  | "1" => some ⟨"Classic Black Hoodie", 4999⟩
  | "2" => some ⟨"Neon Green Hoodie", 5499⟩
  | "3" => some ⟨"Vintage Red Hoodie", 5299⟩
  | "4" => some ⟨"Minimal White Hoodie", 4799⟩
  | "5" => some ⟨"Camo Hoodie", 5999⟩
  | "6" => some ⟨"Tie-Dye Hoodie", 5699⟩
  | _ => none

/-! ## Cart lines and line items -/

/-- Client-supplied cart line. The id has already passed through
String(); quantity keeps its raw JS shape. The price field models any
client-supplied price data: no handler in the repository ever reads it,
which is exactly the property claimed about price trust. The images
array of the client payload is folded into the single optional image
candidate (the code uses it.image or the first element of it.images). -/
structure CartLine where
  id : String
  quantity : JSVal
  size : Option String
  color : Option String
  image : Option String
  price : Option Int
deriving DecidableEq, Repr

structure ProductData where
  name : String
  images : List String
  metadata_base_id : String
  metadata_size : String
  metadata_color : String
deriving DecidableEq, Repr

structure PriceData where
  currency : String
  product_data : ProductData
  unit_amount : Int
deriving DecidableEq, Repr

/-- Line item sent to the processor. quantity is none when the JS value
would be NaN. -/
structure LineItem where
  price_data : PriceData
  quantity : Option Int
deriving DecidableEq, Repr

/-- Embedding of absolutizeImage(base, img): undefined for a falsy
image, the image unchanged when already an absolute http(s) URL, else
joined onto the base with single-slash normalisation. -/
def absolutizeImage (base : String) (img : Option String) : Option String :=
  match img with
  | none => none
  | some i =>
    if i = "" then none
    else if isHttpUrl i then some i
    else some (dropTrailingSlash base ++ "/" ++ dropLeadingSlash i)

/-- Embedding of the variant suffix: the non-empty entries of
[size, color] joined by " / ". -/
def variantSuffix (it : CartLine) : String :=
  String.intercalate " / " ((([it.size, it.color].filterMap id).filter (fun s => s ≠ "")))

/-- Embedding of the line-item construction inside items.map in
create-checkout.js lines 87 to 109 (identical in the other creator
iterations): price and name come from the server catalog, an unknown id
throws, the quantity is the clamped client quantity. -/
def buildLineItem (base : String) (it : CartLine) : Except String LineItem :=
  let qty := clampQty it.quantity
  match CATALOG it.id with
  | none => .error ("Unknown product id: " ++ it.id)
  | some product =>
    let suffix := variantSuffix it
    let displayName := if suffix = "" then product.name else product.name ++ " — " ++ suffix
    let imageUrl := absolutizeImage base it.image
    .ok {
      price_data := {
        currency := CURRENCY
        product_data := {
          name := displayName
          images := match imageUrl with | some u => [u] | none => []
          metadata_base_id := it.id
          metadata_size := it.size.getD ""
          metadata_color := it.color.getD "" }
        unit_amount := product.unit_amount }
      quantity := qty }

/-- Embedding of the subtotal reduce in create-checkout.js lines 110 to
111: sum of unit_amount times quantity, with NaN (none) propagating as
it does through JS addition. -/
def subtotalPence (lis : List LineItem) : Option Int :=
  lis.foldl (fun s li =>
    match s, li.quantity with
    | some a, some q => some (a + li.price_data.unit_amount * q)
    | _, _ => none) (some 0)

/-! ## Environment configuration and shipping-rate selection -/

/-- Environment variables read by the checkout creators. Each shipping
rate id is an env var that may be unset (none) or set, possibly to the
empty string (falsy, hence skipped by the code). The free-shipping
threshold is the raw string value of FREE_SHIP_THRESHOLD_PENCE. -/
structure Env where
  siteUrl : String
  freeShipThresholdPence : Option String
  shipFreeUK : Option String
  shipUKStandard : Option String
  shipUKExpress : Option String
  shipEU : Option String
  shipIntl : Option String
deriving DecidableEq, Repr

/-- Embedding of FREE_THRESH = parseInt(env.FREE_SHIP_THRESHOLD_PENCE
or the string 0, 10); none models NaN from a malformed value. -/
def freeThresh (env : Env) : Option Int :=
  jsParseInt (.str (env.freeShipThresholdPence.getD "0"))

/-- NaN-propagating greater-than: any comparison against NaN is false. -/
def jsGt (a b : Option Int) : Bool :=
  match a, b with
  | some x, some y => x > y
  | _, _ => false

/-- NaN-propagating greater-or-equal: any comparison against NaN is false. -/
def jsGe (a b : Option Int) : Bool :=
  match a, b with
  | some x, some y => x ≥ y
  | _, _ => false

/-- Free-shipping condition shared by both creator iterations:
FREE_THRESH greater than 0 and subtotal at least FREE_THRESH. -/
def freeShipCond (env : Env) (subtotal : Option Int) : Bool :=
  jsGt (freeThresh env) (some 0) && jsGe subtotal (freeThresh env)

/-- Embedding of the pushRate helper: push the rate only when the env
var is present and truthy. -/
def pushRate (r : Option String) : List String :=
  match r with
  | some id => if id = "" then [] else [id]
  | none => []

/-- Embedding of the shipping_options block of create-checkout.js lines
114 to 122 (no country detection: every configured rate is offered, the
free UK rate gated on the threshold). -/
def shippingOptionsEnv (env : Env) (subtotal : Option Int) : List String :=
  (if freeShipCond env subtotal then pushRate env.shipFreeUK else [])
    ++ pushRate env.shipUKStandard
    ++ pushRate env.shipUKExpress
    ++ pushRate env.shipEU
    ++ pushRate env.shipIntl

/-- Embedding of EU_SET in the country-aware creator. -/
def EU_SET : List String :=
  ["IE", "FR", "DE", "NL", "ES", "IT", "BE", "LU", "PT", "PL", "SE", "DK",
   "FI", "AT", "CZ", "HU", "RO", "BG", "HR", "GR", "SI", "SK", "LV", "LT",
   "EE", "CY", "MT"]

/-- Geo-related request headers seen by detectCountry. xNfGeoCountry is
the country field of the parsed x-nf-geo header (none when the header is
absent, fails to parse as JSON, or lacks a string country field);
cfCountry is the first present of cf-ipcountry, x-country and
x-country-code. -/
structure GeoHeaders where
  xNfGeoCountry : Option String
  cfCountry : Option String
deriving DecidableEq, Repr

/-- One step of detectCountry: accept a candidate only when it is a
2-character string, uppercased; otherwise fall through. -/
def pick2 (c : Option String) : Option String :=
  match c with
  | some s => if s.length = 2 then some (jsToUpper s) else none
  | none => none

/-- Embedding of detectCountry(event, hintCountry): Netlify geo header,
then CDN country headers, then the client hint; null when none of them
yields a 2-letter code. -/
def detectCountry (h : GeoHeaders) (hintCountry : Option String) : Option String :=
  (pick2 h.xNfGeoCountry).orElse (fun _ =>
    (pick2 h.cfCountry).orElse (fun _ =>
      pick2 hintCountry))

/-- Embedding of the country-aware shipping selection of the creator
iteration stored at src/netlify/functions/retrieve-session.js lines 149
to 175: unresolved country offers everything, GB offers the UK rates
with the threshold-gated free rate, the EU set offers the single EU
rate, everyone else the international rate. -/
def shippingOptionsGeo (env : Env) (country : Option String) (subtotal : Option Int) : List String :=
  match country with
  | none =>
    (if freeShipCond env subtotal then pushRate env.shipFreeUK else [])
      ++ pushRate env.shipUKStandard
      ++ pushRate env.shipUKExpress
      ++ pushRate env.shipEU
      ++ pushRate env.shipIntl
  | some c =>
    if c = "GB" then
      (if freeShipCond env subtotal then pushRate env.shipFreeUK else [])
        ++ pushRate env.shipUKStandard
        ++ pushRate env.shipUKExpress
    else if EU_SET.contains c then pushRate env.shipEU
    else pushRate env.shipIntl

/-! ## Session objects and order references -/

/-- Summary entry serialised into metadata.cart. The code stores
JSON.stringify of exactly these four fields per item; the string
serialisation itself is abstracted to the list of entries. -/
structure CartEntry where
  id : String
  quantity : JSVal
  size : Option String
  color : Option String
deriving DecidableEq, Repr

/-- Embedding of the metadata cart mapping in the creators. -/
def cartSummary (items : List CartLine) : List CartEntry :=
  items.map (fun it => ⟨it.id, it.quantity, it.size, it.color⟩)

/-- Parameters the creator passes to the processor when creating a
session (mode, address collection, tax and promotion flags are constant
and elided; the correlation and metadata fields claimed about are kept
exactly). -/
structure SessionCreateParams where
  line_items : List LineItem
  client_reference_id : String
  metadata_order_number : String
  metadata_cart : List CartEntry
  shipping_options : List String
  success_url : String
  cancel_url : String
deriving DecidableEq, Repr

/-- Checkout Session object as later read back from the processor.
Nested optional paths of the JS objects (metadata, customer_details,
shipping_cost, total_details) are flattened into optional fields. -/
structure Session where
  id : String
  client_reference_id : Option String
  metadata_order_number : Option String
  metadata_order_ref : Option String
  metadata_cart : Option (List CartEntry)
  customer_details_email : Option String
  customer_email : Option String
  amount_subtotal : Option Int
  amount_total : Option Int
  total_details_amount_shipping : Option Int
  shipping_cost_amount_total : Option Int
  shipping_cost_shipping_rate : Option String
deriving DecidableEq, Repr

/-- Processor-determined fields of a stored session (amounts, customer
details), not chosen by this repository. -/
structure SessionExtras where
  customer_details_email : Option String
  customer_email : Option String
  amount_subtotal : Option Int
  amount_total : Option Int
  total_details_amount_shipping : Option Int
  shipping_cost_amount_total : Option Int
  shipping_cost_shipping_rate : Option String
deriving DecidableEq, Repr

/-- Session object the processor stores for a created session: per the
data model in the spec (section 3), the Checkout Session holds the
client-supplied correlation reference and metadata unchanged; the
remaining fields are processor-determined. The creator sets
metadata.order_number but never metadata.order_ref, so that field is
absent on a stored session. -/
def storedSession (sid : String) (p : SessionCreateParams) (ex : SessionExtras) : Session :=
  { id := sid
    client_reference_id := some p.client_reference_id
    metadata_order_number := some p.metadata_order_number
    metadata_order_ref := none
    metadata_cart := some p.metadata_cart
    customer_details_email := ex.customer_details_email
    customer_email := ex.customer_email
    amount_subtotal := ex.amount_subtotal
    amount_total := ex.amount_total
    total_details_amount_shipping := ex.total_details_amount_shipping
    shipping_cost_amount_total := ex.shipping_cost_amount_total
    shipping_cost_shipping_rate := ex.shipping_cost_shipping_rate }

/-- JS string fallback: a || b returns a when a is a truthy string,
otherwise b. -/
def jsOrStr (a : Option String) (b : String) : String :=
  match a with
  | some s => if s = "" then b else s
  | none => b

/-- Embedding of newOrderNumber() in the creators: CL- followed by the
current date and a random alphanumeric suffix. Date and suffix are
parameters standing for the clock and the random generator. -/
def newOrderNumber (year month day : Nat) (rand : String) : String :=
  "CL-" ++ toString year ++ "-"
    ++ (if month < 10 then "0" ++ toString month else toString month) ++ "-"
    ++ (if day < 10 then "0" ++ toString day else toString day) ++ "-" ++ rand

/-- Embedding of the order reference derivation in the canonical session
retriever (src/unnamed/part_000, third iteration): client_reference_id,
else metadata.order_ref, else CL- plus the uppercased last 8 characters
of the session id. -/
def retrieveOrderRef (s : Session) : String :=
  jsOrStr s.client_reference_id
    (jsOrStr s.metadata_order_ref ("CL-" ++ jsToUpper (lastChars 8 s.id)))

/-- Embedding of the order reference computed by the webhook handler at
src/netlify/functions/stripe-webhook.js line 25: CL- plus the uppercased
last 5 characters of the session id, ignoring the correlation field and
metadata entirely. -/
def webhookOrderNumber (s : Session) : String :=
  "CL-" ++ jsToUpper (lastChars 5 s.id)

/-- Embedding of the order reference derivation in the webhook iteration
src/unnamed/part_001: client_reference_id, else metadata.order_ref, else
metadata.order_number, else CL- plus the uppercased last 8 characters of
the session id. -/
def webhook2OrderRef (s : Session) : String :=
  jsOrStr s.client_reference_id
    (jsOrStr s.metadata_order_ref
      (jsOrStr s.metadata_order_number
        ("CL-" ++ jsToUpper (lastChars 8 s.id))))

/-- Embedding of the customer email derivation shared by both webhook
iterations: customer_details email, else customer_email, else null. -/
def emailOf (s : Session) : Option String :=
  match s.customer_details_email with
  | some e => if e = "" then (match s.customer_email with
      | some e2 => if e2 = "" then none else some e2
      | none => none) else some e
  | none => match s.customer_email with
    | some e2 => if e2 = "" then none else some e2
    | none => none

/-! ## HTTP requests, responses, effects and the external world -/

structure HttpResponse where
  statusCode : Nat
  body : String
deriving DecidableEq, Repr

/-- Observable outbound calls a handler makes after signature
verification. -/
inductive Effect : Type where
  | listLineItemsCall (sessionId : String)
  | shippingRateCall (rateId : String)
  | retrieveSessionCall (sessionId : String)
  | emailSend (addr : String)
deriving DecidableEq, Repr

/-- Whether an effect is an outbound email dispatch. -/
def Effect.isEmail : Effect → Bool
  | .emailSend _ => true
  | _ => false

/-- Email message assembled by a webhook handler. The HTML and text
renderings are pure string formatting that no claim inspects and are
elided; the recipient, copy and subject are kept. -/
structure EmailMsg where
  toAddr : String
  cc : String
  subject : String
deriving DecidableEq, Repr

/-- Stripe event as produced by constructEvent: a type tag and the
session object carried in data.object. -/
structure StripeEvent where
  type : String
  obj : Session
deriving DecidableEq, Repr

/-- Signature verifier, modelling stripe.webhooks.constructEvent over
the raw body and the stripe-signature header: an error models a thrown
signature failure, success yields the parsed event. Parsing of the body
happens only inside this primitive, after verification, exactly as in
the SDK. -/
def Verifier : Type := String → Option String → Except String StripeEvent

/-- Remote line item returned by the listLineItems call. -/
structure RemoteLineItem where
  description : Option String
  quantity : Option Int
  amount_total : Option Int
deriving DecidableEq, Repr

/-- Responses of the external processor and email API during one webhook
invocation; an error value models a rejected SDK promise. -/
structure StripeWorld where
  listLineItems : String → Except String (List RemoteLineItem)
  retrieveSession : String → Except String Session
  sendEmail : EmailMsg → Except String Unit

/-- Inbound webhook request: the raw (already byte-decoded) body and the
stripe-signature header. -/
structure WebhookRequest where
  body : String
  sigHeader : Option String
deriving DecidableEq, Repr

/-! ## Payment-event receiver, src/netlify/functions/stripe-webhook.js

The handler verifies the signature, ignores every event type other than
checkout.session.completed, fetches the line items (this await has no
surrounding try, so a rejection escapes the handler: modelled as the
Except error of the result), attempts the shipping-rate lookup inside a
swallowed try, and sends the confirmation email inside a swallowed try
when a customer email exists. The monetary formatting and HTML body feed
only the elided email content. -/
def stripeWebhookHandler (verify : Verifier) (w : StripeWorld) (req : WebhookRequest) :
    Except String (HttpResponse × List Effect) :=
  match verify req.body req.sigHeader with
  | .error msg => .ok ({ statusCode := 400, body := "Webhook Error: " ++ msg }, [])
  | .ok evt =>
    if evt.type = "checkout.session.completed" then
      let session := evt.obj
      let email := emailOf session
      let orderNumber := webhookOrderNumber session
      match w.listLineItems session.id with
      | .error e => .error e
      | .ok _items =>
        let rateEffects :=
          match session.shipping_cost_shipping_rate with
          | none => []
          | some rid => if rid = "" then [] else [Effect.shippingRateCall rid]
        let baseEffects := Effect.listLineItemsCall session.id :: rateEffects
        match email with
        | none => .ok ({ statusCode := 200, body := "ok" }, baseEffects)
        | some addr =>
          let msg : EmailMsg :=
            { toAddr := addr
              cc := "sales@clarity-clothing.com"
              subject := "Clarity order " ++ orderNumber ++ " confirmed" }
          let _ := w.sendEmail msg
          .ok ({ statusCode := 200, body := "ok" }, baseEffects ++ [Effect.emailSend addr])
    else
      .ok ({ statusCode := 200, body := "ok" }, [])

/-! ## Payment-event receiver iteration, src/unnamed/part_001

This iteration returns 200 with body Ignored for irrelevant event types,
re-fetches the full session, and wraps all processing after the type
check in a try whose catch returns 500 Internal Error; the email send
has its own inner swallowed try. Nothing escapes uncaught, so the result
is a plain response. -/
def stripeWebhookHandler2 (verify : Verifier) (w : StripeWorld) (req : WebhookRequest) :
    HttpResponse × List Effect :=
  match verify req.body req.sigHeader with
  | .error msg => ({ statusCode := 400, body := "Webhook Error: " ++ msg }, [])
  | .ok evt =>
    if evt.type = "checkout.session.completed" then
      match w.retrieveSession evt.obj.id with
      | .error _ =>
        ({ statusCode := 500, body := "Internal Error" }, [Effect.retrieveSessionCall evt.obj.id])
      | .ok session =>
        let orderRef := webhook2OrderRef session
        let email := emailOf session
        let baseEffects := [Effect.retrieveSessionCall evt.obj.id]
        match email with
        | none => ({ statusCode := 200, body := "ok" }, baseEffects)
        | some addr =>
          let msg : EmailMsg :=
            { toAddr := addr
              cc := "sales@clarity-clothing.com"
              subject := "Thanks for your order — #" ++ orderRef }
          let _ := w.sendEmail msg
          ({ statusCode := 200, body := "ok" }, baseEffects ++ [Effect.emailSend addr])
    else
      ({ statusCode := 200, body := "Ignored" }, [])

/-- Status of a webhook result that may have escaped as an exception. -/
def respStatus (r : Except String (HttpResponse × List Effect)) : Option Nat :=
  match r with
  | .ok (resp, _) => some resp.statusCode
  | .error _ => none

/-- Effects of a webhook result that may have escaped as an exception. -/
def respEffects (r : Except String (HttpResponse × List Effect)) : Option (List Effect) :=
  match r with
  | .ok (_, effs) => some effs
  | .error _ => none

/-! ## Checkout-session creators -/

/-- Parsed shape of the items field of the request body. -/
inductive ItemsField : Type where
  | missing
  | nonArray
  | array (xs : List CartLine)
deriving DecidableEq, Repr

/-- Successfully parsed JSON request body of a create-checkout call. -/
structure BodyObj where
  items : ItemsField
  basePath : Option String
  hintCountry : Option String
deriving DecidableEq, Repr

/-- Outcome of JSON.parse(event.body or the empty-object literal): a
missing body parses to an object without items; a malformed body throws
(parseError, caught by the outer catch of the handler). -/
inductive ParsedBody : Type where
  | parseError (msg : String)
  | obj (o : BodyObj)
deriving DecidableEq, Repr

/-- Inbound create-checkout request. The geo headers are only read by
the country-aware iteration. -/
structure CheckoutRequest where
  httpMethod : String
  origin : String
  body : ParsedBody
  geo : GeoHeaders
deriving DecidableEq, Repr

/-- Hostname of an origin URL, modelling new URL(origin).hostname; none
models the URL constructor throwing on a non-absolute origin. -/
def originHostname (origin : String) : Option String :=
  if origin.startsWith "http://" then
    some ((origin.drop 7).takeWhile (fun c => c ≠ ':' ∧ c ≠ '/'))
  else if origin.startsWith "https://" then
    some ((origin.drop 8).takeWhile (fun c => c ≠ ':' ∧ c ≠ '/'))
  else none

/-- Embedding of isLocalOrigin(origin). -/
def isLocalOrigin (origin : String) : Bool :=
  match originHostname origin with
  | some h => h = "localhost" || h = "127.0.0.1"
  | none => false

/-- Embedding of normalizeBasePath(basePath): empty for a falsy input,
else one leading slash, no trailing slashes. -/
def normalizeBasePath (basePath : Option String) : String :=
  match basePath with
  | none => ""
  | some bp => if bp = "" then "" else dropTrailingSlashes ("/" ++ dropLeadingSlashes bp)

/-- Base URL for redirect targets and relative images: origin plus the
cleaned basePath for a local origin with a basePath, else the configured
site URL. -/
def resolveBase (env : Env) (origin : String) (basePath : Option String) : String :=
  let cleanBase := normalizeBasePath basePath
  if isLocalOrigin origin && cleanBase ≠ "" then origin ++ cleanBase else env.siteUrl

/-- JSON error body returned by the catch blocks (message escaping by
JSON.stringify is elided). -/
def jsonError (msg : String) : String :=
  "\x7b\"error\":\"" ++ msg ++ "\"\x7d"

/-- JSON success body of a creator: sessionId and url. -/
def jsonOk (sid url : String) : String :=
  "\x7b\"sessionId\":\"" ++ sid ++ "\",\"url\":\"" ++ url ++ "\"\x7d"

/-- Session id and redirect URL returned by the processor on creation. -/
structure CreatedSession where
  id : String
  url : String
deriving DecidableEq, Repr

/-- Result of a creator handler: the HTTP response, and the parameters
of the session-creation call when one was issued to the processor (none
when the handler returned before calling the processor). -/
abbrev CreateResult := HttpResponse × Option SessionCreateParams

/-- Shared tail of both creator iterations once the items array is
known to be non-empty: build the line items from server truth (an
unknown id throws to the catch, 500), compute the subtotal, pick the
shipping options with the given policy, attach the order number as
client_reference_id and metadata.order_number, and call the processor
(any processor failure also reaches the catch, 500). -/
def createSessionCore (env : Env) (orderNumber : String)
    (create : SessionCreateParams → Except String CreatedSession)
    (origin : String) (basePath : Option String) (items : List CartLine)
    (opts : Option Int → List String) : CreateResult :=
  let base := resolveBase env origin basePath
  match items.mapM (buildLineItem base) with
  | .error e => ({ statusCode := 500, body := jsonError e }, none)
  | .ok line_items =>
    let subtotal := subtotalPence line_items
    let p : SessionCreateParams :=
      { line_items := line_items
        client_reference_id := orderNumber
        metadata_order_number := orderNumber
        metadata_cart := cartSummary items
        shipping_options := opts subtotal
        success_url := base ++ "/success.html?session_id={CHECKOUT_SESSION_ID}"
        cancel_url := base ++ "/cancel.html" }
    match create p with
    | .error e => ({ statusCode := 500, body := jsonError e }, some p)
    | .ok s => ({ statusCode := 200, body := jsonOk s.id s.url }, some p)

/-- Method and body validation shared by both creator iterations, then
the given continuation on a non-empty items array. -/
def createCheckoutCommon (req : CheckoutRequest)
    (k : BodyObj → List CartLine → CreateResult) : CreateResult :=
  if req.httpMethod = "OPTIONS" then ({ statusCode := 204, body := "" }, none)
  else if req.httpMethod ≠ "POST" then
    ({ statusCode := 405, body := "Method Not Allowed" }, none)
  else
    match req.body with
    | .parseError msg => ({ statusCode := 500, body := jsonError msg }, none)
    | .obj o =>
      match o.items with
      | .missing => ({ statusCode := 400, body := "No items in request." }, none)
      | .nonArray => ({ statusCode := 400, body := "No items in request." }, none)
      | .array xs =>
        if xs.isEmpty then ({ statusCode := 400, body := "No items in request." }, none)
        else k o xs

/-- Embedding of the handler of src/netlify/functions/create-checkout.js:
no country detection, shipping options purely from the environment. -/
def createCheckoutHandler (env : Env) (orderNumber : String)
    (create : SessionCreateParams → Except String CreatedSession)
    (req : CheckoutRequest) : CreateResult :=
  createCheckoutCommon req (fun o xs =>
    createSessionCore env orderNumber create req.origin o.basePath xs
      (fun subtotal => shippingOptionsEnv env subtotal))

/-- Embedding of the country-aware creator iteration stored at
src/netlify/functions/retrieve-session.js: like createCheckoutHandler
but the shipping options follow the detected country. -/
def createCheckoutGeoHandler (env : Env) (orderNumber : String)
    (create : SessionCreateParams → Except String CreatedSession)
    (req : CheckoutRequest) : CreateResult :=
  createCheckoutCommon req (fun o xs =>
    createSessionCore env orderNumber create req.origin o.basePath xs
      (fun subtotal => shippingOptionsGeo env (detectCountry req.geo o.hintCountry) subtotal))

/-! ## Helper lemmas -/

/-- A successfully built line item records the clamped client quantity. -/
lemma buildLineItem_quantity (base : String) (it : CartLine) (li : LineItem)
    (h : buildLineItem base it = .ok li) : li.quantity = clampQty it.quantity := by
  unfold buildLineItem at h
  cases hcat : CATALOG it.id with
  | none => rw [hcat] at h; exact absurd h (by simp)
  | some p => rw [hcat] at h; cases h; rfl

/-- A successfully built line item exists only for a catalog id, and its
unit amount is the catalog unit amount. -/
lemma buildLineItem_catalog (base : String) (it : CartLine) (li : LineItem)
    (h : buildLineItem base it = .ok li) :
    ∃ p, CATALOG it.id = some p ∧ li.price_data.unit_amount = p.unit_amount := by
  unfold buildLineItem at h
  cases hcat : CATALOG it.id with
  | none => rw [hcat] at h; exact absurd h (by simp)
  | some p => rw [hcat] at h; cases h; exact ⟨p, rfl, rfl⟩

/-! ## Concrete fixtures for witnesses and counterexamples -/

/-- Session with every optional field absent. -/
def emptySession : Session :=
  { id := "cs_test_empty"
    client_reference_id := none
    metadata_order_number := none
    metadata_order_ref := none
    metadata_cart := none
    customer_details_email := none
    customer_email := none
    amount_subtotal := none
    amount_total := none
    total_details_amount_shipping := none
    shipping_cost_amount_total := none
    shipping_cost_shipping_rate := none }

/-- World in which every external call fails. -/
def failingWorld : StripeWorld :=
  { listLineItems := fun _ => .error "network down"
    retrieveSession := fun _ => .error "network down"
    sendEmail := fun _ => .error "network down" }

/-- World in which the processor calls succeed but the email API fails. -/
def emailFailWorld (s : Session) : StripeWorld :=
  { listLineItems := fun _ => .ok []
    retrieveSession := fun _ => .ok s
    sendEmail := fun _ => .error "resend unavailable" }

/-- Cart line used by the C4 fixtures, with a client-supplied price. -/
def hoodieLine (pr : Option Int) : CartLine :=
  { id := "2", quantity := .num 1, size := none, color := none,
    image := none, price := pr }

/-- Line item the creator builds from hoodieLine. -/
def hoodieLineItem : LineItem :=
  { price_data :=
      { currency := "gbp"
        product_data :=
          { name := "Neon Green Hoodie"
            images := []
            metadata_base_id := "2"
            metadata_size := ""
            metadata_color := "" }
        unit_amount := 5499 }
    quantity := some 1 }

/-! ## Claim theorems -/

/-- C1: a webhook request whose signature does not verify against the
shared secret over the raw body makes both payment-event receiver
iterations return status 400 immediately, with no outbound call of any
kind (the event is parsed only inside the verification primitive, so no
JSON parsing of the event, no session or line-item fetch and no email
happen). -/
theorem webhook_bad_signature_rejected (verify : Verifier) (w : StripeWorld)
    (req : WebhookRequest) (msg : String)
    (h : verify req.body req.sigHeader = .error msg) :
    stripeWebhookHandler verify w req =
      .ok ({ statusCode := 400, body := "Webhook Error: " ++ msg }, []) ∧
    stripeWebhookHandler2 verify w req =
      ({ statusCode := 400, body := "Webhook Error: " ++ msg }, []) := by
  constructor
  · simp [stripeWebhookHandler, h]
  · simp [stripeWebhookHandler2, h]

/-- Concrete run of webhook_bad_signature_rejected: a verifier that
rejects the signature yields 400 and an empty effect list. -/
theorem webhook_bad_signature_rejected_witness :
    stripeWebhookHandler (fun _ _ => .error "No signatures found") failingWorld
        ⟨"raw-payload", some "t=1,v1=tampered"⟩ =
      .ok ({ statusCode := 400, body := "Webhook Error: No signatures found" }, []) ∧
    stripeWebhookHandler2 (fun _ _ => .error "No signatures found") failingWorld
        ⟨"raw-payload", some "t=1,v1=tampered"⟩ =
      ({ statusCode := 400, body := "Webhook Error: No signatures found" }, []) :=
  webhook_bad_signature_rejected (fun _ _ => .error "No signatures found") failingWorld
    ⟨"raw-payload", some "t=1,v1=tampered"⟩ "No signatures found" rfl

/-- C9: a webhook request whose signature verifies but whose event type
is not checkout.session.completed makes both receiver iterations return
status 200 immediately with no outbound call (no email, no further
processor call). -/
theorem webhook_irrelevant_event_ignored (verify : Verifier) (w : StripeWorld)
    (req : WebhookRequest) (evt : StripeEvent)
    (hok : verify req.body req.sigHeader = .ok evt)
    (hne : evt.type ≠ "checkout.session.completed") :
    stripeWebhookHandler verify w req = .ok ({ statusCode := 200, body := "ok" }, []) ∧
    stripeWebhookHandler2 verify w req = ({ statusCode := 200, body := "Ignored" }, []) := by
  constructor
  · simp [stripeWebhookHandler, hok, hne]
  · simp [stripeWebhookHandler2, hok, hne]

/-- Concrete run of webhook_irrelevant_event_ignored on a verified
payment_intent.created event. -/
theorem webhook_irrelevant_event_ignored_witness :
    stripeWebhookHandler (fun _ _ => .ok ⟨"payment_intent.created", emptySession⟩)
        failingWorld ⟨"raw-payload", some "t=1,v1=good"⟩ =
      .ok ({ statusCode := 200, body := "ok" }, []) ∧
    stripeWebhookHandler2 (fun _ _ => .ok ⟨"payment_intent.created", emptySession⟩)
        failingWorld ⟨"raw-payload", some "t=1,v1=good"⟩ =
      ({ statusCode := 200, body := "Ignored" }, []) :=
  webhook_irrelevant_event_ignored (fun _ _ => .ok ⟨"payment_intent.created", emptySession⟩)
    failingWorld ⟨"raw-payload", some "t=1,v1=good"⟩ ⟨"payment_intent.created", emptySession⟩
    rfl (by decide)

/-- Client cart item of the legacy creator iteration at the end of
src/unnamed/part_004 (the handler taking cartItems): that handler reads
name, priceInPence and quantity of each item; any id field the client
sends along is carried but never consulted. -/
structure LegacyCartItem where
  id : String
  name : String
  priceInPence : Int
  quantity : Int
deriving DecidableEq, Repr

/-- price_data of a legacy line item: product_data holds only the name. -/
structure LegacyPriceData where
  currency : String
  product_name : String
  unit_amount : Int
deriving DecidableEq, Repr

/-- Line item the legacy creator sends to the processor. -/
structure LegacyLineItem where
  price_data : LegacyPriceData
  quantity : Int
deriving DecidableEq, Repr

/-- Embedding of the cartItems.map of the legacy creator iteration,
src/unnamed/part_004 lines 184 to 195: no catalog lookup and no quantity
clamping; the unit amount is the client-supplied priceInPence. -/
def legacyLineItems (cartItems : List LegacyCartItem) : List LegacyLineItem :=
  cartItems.map (fun item =>
    { price_data :=
        { currency := "gbp"
          product_name := item.name
          unit_amount := item.priceInPence }
      quantity := item.quantity })

/-- C4 counterexample: the legacy creator iteration at the end of
src/unnamed/part_004 prices the line from the client-supplied
priceInPence: a cart item carrying catalog id 1 (catalog amount 4999)
with a client price of 1 penny is sent to the processor with unit amount
1, not 4999, and two carts differing only in the client price field
produce different line items. -/
theorem price_from_catalog_counterexample :
    (legacyLineItems [⟨"1", "Classic Black Hoodie", 1, 2⟩]).map
        (fun l => l.price_data.unit_amount) = [1] ∧
    (legacyLineItems [⟨"1", "Classic Black Hoodie", 1, 2⟩]).map
        (fun l => l.price_data.unit_amount) ≠ [4999] ∧
    CATALOG "1" = some ⟨"Classic Black Hoodie", 4999⟩ ∧
    legacyLineItems [⟨"1", "Classic Black Hoodie", 1, 2⟩] ≠
      legacyLineItems [⟨"1", "Classic Black Hoodie", 999999, 2⟩] := by
  decide

/-- C4 as amended: in the catalog-based creator iterations the unit
amount sent for a catalog id is the catalog unit amount and the
client-supplied price field has no influence (the same line with any
other price field builds the identical line item); the legacy creator
iteration at the end of src/unnamed/part_004, however, sends exactly the
client-supplied priceInPence of every item as the unit amount, so there
the client price alone determines the price charged. -/
theorem price_from_catalog (base : String) (it : CartLine) (p : Product) (li : LineItem)
    (pr : Option Int)
    (hcat : CATALOG it.id = some p)
    (hok : buildLineItem base it = .ok li) :
    (li.price_data.unit_amount = p.unit_amount ∧
      buildLineItem base { it with price := pr } = buildLineItem base it) ∧
    (∀ cartItems : List LegacyCartItem,
      (legacyLineItems cartItems).map (fun l => l.price_data.unit_amount)
        = cartItems.map (fun item => item.priceInPence)) := by
  refine ⟨⟨?_, rfl⟩, ?_⟩
  · obtain ⟨q, hq, hu⟩ := buildLineItem_catalog base it li hok
    rw [hcat] at hq
    cases hq
    exact hu
  · intro cartItems
    simp [legacyLineItems]

/-- Concrete run of price_from_catalog: a cart line for product 2 with a
client price of 1 penny still produces the catalog amount 5499 in the
catalog-based creators and changing the client price to 999999 changes
nothing there, while the legacy creator forwards a client price of 123
pence untouched. -/
theorem price_from_catalog_witness :
    (buildLineItem "https://example.com" (hoodieLine (some 1))).map
        (fun li => li.price_data.unit_amount) = .ok 5499 ∧
    buildLineItem "https://example.com" (hoodieLine (some 999999)) =
      buildLineItem "https://example.com" (hoodieLine (some 1)) ∧
    (legacyLineItems [⟨"2", "Neon Green Hoodie", 123, 1⟩]).map
        (fun l => l.price_data.unit_amount) = [123] := by
  have h := price_from_catalog "https://example.com" (hoodieLine (some 1))
    ⟨"Neon Green Hoodie", 5499⟩ hoodieLineItem (some 999999) rfl (by rfl)
  exact ⟨rfl, h.1.2, h.2 [⟨"2", "Neon Green Hoodie", 123, 1⟩]⟩

/-- C6 counterexample: the claim says a non-numeric client quantity is
treated as 1, but for the truthy non-numeric string abc the code
computes Math.max(1, parseInt(abc, 10)) = Math.max(1, NaN) = NaN, not
1. -/
theorem clamp_quantity_counterexample :
    clampQty (JSVal.str "abc") ≠ some 1 ∧ clampQty (JSVal.str "abc") = none := by
  decide

/-- C6 as amended: the quantity used by the creator is 1 for every falsy
client quantity (missing, null, 0, NaN, empty string); for a truthy
quantity that parses to an integer it is that integer clamped to at
least 1 (so any quantity at most 0 becomes 1); and for a truthy
non-numeric quantity it is NaN (none), which is not 1 and poisons the
session-creation call. -/
theorem clamp_quantity_spec (q : JSVal) :
    (jsTruthy q = false → clampQty q = some 1) ∧
    (∀ n : Int, jsTruthy q = true → jsParseInt q = some n → clampQty q = some (max 1 n)) ∧
    (jsTruthy q = true → jsParseInt q = none → clampQty q = none) := by
  refine ⟨fun hf => ?_, fun n ht hp => ?_, fun ht hp => ?_⟩
  · simp [clampQty, hf, jsParseInt]
  · simp [clampQty, ht, hp]
  · simp [clampQty, ht, hp]

/-- Concrete runs of clamp_quantity_spec: quantity 0 and a missing
quantity give 1, quantity -3 is clamped to 1, quantity 7 stays 7, and
the truthy non-numeric string abc gives NaN. -/
theorem clamp_quantity_spec_witness :
    clampQty (JSVal.num 0) = some 1 ∧
    clampQty JSVal.undefined = some 1 ∧
    clampQty (JSVal.num (-3)) = some 1 ∧
    clampQty (JSVal.num 7) = some 7 ∧
    clampQty (JSVal.str "abc") = none := by
  refine ⟨(clamp_quantity_spec (JSVal.num 0)).1 (by decide),
          (clamp_quantity_spec JSVal.undefined).1 (by decide),
          ?_, ?_,
          (clamp_quantity_spec (JSVal.str "abc")).2.2 (by decide) (by decide)⟩
  · have h := (clamp_quantity_spec (JSVal.num (-3))).2.1 (-3) (by decide) (by decide)
    simpa using h
  · have h := (clamp_quantity_spec (JSVal.num 7)).2.1 7 (by decide) (by decide)
    simpa using h

/-- Step function of the subtotal reduce, named for the fold lemma. -/
lemma subtotalPence_cons (li : LineItem) (lis : List LineItem) (a : Int) (q : Int)
    (hq : li.quantity = some q) :
    (li :: lis).foldl (fun s l => match s, l.quantity with
        | some a, some q => some (a + l.price_data.unit_amount * q)
        | _, _ => none) (some a)
      = lis.foldl (fun s l => match s, l.quantity with
        | some a, some q => some (a + l.price_data.unit_amount * q)
        | _, _ => none) (some (a + li.price_data.unit_amount * q)) := by
  simp [List.foldl_cons, hq]

/-- Fold lemma behind C5: when every cart line maps to a line item and
no quantity is NaN, the reduce over the built line items computes the
sum of catalog unit amount times clamped quantity, for any accumulator. -/
lemma subtotal_foldl_aux (base : String) :
    ∀ (items : List CartLine) (lis : List LineItem) (a : Int),
      items.mapM (buildLineItem base) = .ok lis →
      (∀ it ∈ items, clampQty it.quantity ≠ none) →
      lis.foldl (fun s l => match s, l.quantity with
          | some a, some q => some (a + l.price_data.unit_amount * q)
          | _, _ => none) (some a)
        = some (items.foldl (fun s it =>
            s + ((CATALOG it.id).map (fun p => p.unit_amount)).getD 0
              * (clampQty it.quantity).getD 1) a)
  | [], lis, a, h, _ => by
    simp only [List.mapM_nil, pure, Except.pure] at h
    cases h
    simp
  | x :: xs, lis, a, h, hq => by
    rw [List.mapM_cons] at h
    cases hx : buildLineItem base x with
    | error e => rw [hx] at h; simp [Bind.bind, Except.bind] at h
    | ok li =>
      rw [hx] at h
      cases hxs : xs.mapM (buildLineItem base) with
      | error e =>
        rw [hxs] at h; simp [Bind.bind, Except.bind, pure, Except.pure] at h
      | ok tl =>
        rw [hxs] at h
        simp only [Bind.bind, Except.bind, pure, Except.pure] at h
        cases h
        obtain ⟨p, hp, hu⟩ := buildLineItem_catalog base x li hx
        have hqx := buildLineItem_quantity base x li hx
        cases hcq : clampQty x.quantity with
        | none => exact absurd hcq (hq x (by simp))
        | some q =>
          rw [hcq] at hqx
          rw [subtotalPence_cons li tl a q hqx, List.foldl_cons]
          rw [subtotal_foldl_aux base xs tl _ hxs (fun it hit => hq it (by simp [hit]))]
          rw [hu, hp]
          simp [hcq]

/-- C5: when every cart line resolves in the catalog and no quantity is
NaN, the computed subtotal equals the sum over the lines of the catalog
unit amount times the clamped quantity, in integer pence. -/
theorem checkout_subtotal_eq (base : String) (items : List CartLine) (lis : List LineItem)
    (h : items.mapM (buildLineItem base) = .ok lis)
    (hq : ∀ it ∈ items, clampQty it.quantity ≠ none) :
    subtotalPence lis = some (items.foldl (fun s it =>
      s + ((CATALOG it.id).map (fun p => p.unit_amount)).getD 0
        * (clampQty it.quantity).getD 1) 0) :=
  subtotal_foldl_aux base items lis 0 h hq

/-- Cart of the end-to-end example in the spec: two units of product 1. -/
def exampleCart : List CartLine :=
  [{ id := "1", quantity := .num 2, size := none, color := none,
     image := none, price := none }]

/-- Line item built from exampleCart. -/
def exampleLineItem : LineItem :=
  { price_data :=
      { currency := "gbp"
        product_data :=
          { name := "Classic Black Hoodie"
            images := []
            metadata_base_id := "1"
            metadata_size := ""
            metadata_color := "" }
        unit_amount := 4999 }
    quantity := some 2 }

/-- Concrete run of checkout_subtotal_eq on the end-to-end example: the
cart with two units of product 1 builds exactly one line item named
Classic Black Hoodie with quantity 2 and unit amount 4999, and the
subtotal is 9998 pence. -/
theorem checkout_subtotal_eq_witness :
    exampleCart.mapM (buildLineItem "https://example.com") = .ok [exampleLineItem] ∧
    subtotalPence [exampleLineItem] = some 9998 ∧
    exampleLineItem.price_data.product_data.name = "Classic Black Hoodie" ∧
    exampleLineItem.quantity = some 2 ∧
    exampleLineItem.price_data.unit_amount = 4999 := by
  refine ⟨by rfl, ?_, rfl, rfl, rfl⟩
  have h := checkout_subtotal_eq "https://example.com" exampleCart [exampleLineItem]
    (by rfl) (by decide)
  exact h.trans (by rfl)

/-- World in which every processor call times out but the email API
works; used by the C10 counterexample. -/
def timeoutWorld : StripeWorld :=
  { listLineItems := fun _ => .error "stripe timeout"
    retrieveSession := fun _ => .error "stripe timeout"
    sendEmail := fun _ => .ok () }

/-- Completed-checkout event fixture with no derivable customer email,
under a session id distinct from the other fixtures. -/
def noEmailEvent : StripeEvent :=
  ⟨"checkout.session.completed", { emptySession with id := "cs_live_q5r6s7" }⟩

/-- C10 counterexample: on a verified completed event from which no
customer email can be derived, the handler of stripe-webhook.js does not
always return 200: the line-item fetch happens before the email check
and outside any catch, so its rejection escapes the handler with no 200
response (no email is dispatched, but the claimed status fails). -/
theorem webhook_no_email_fetch_failure_counterexample :
    emailOf noEmailEvent.obj = none ∧
    stripeWebhookHandler (fun _ _ => .ok noEmailEvent) timeoutWorld
        ⟨"raw-payload-c10", some "t=2,v1=good"⟩ = .error "stripe timeout" ∧
    respStatus (stripeWebhookHandler (fun _ _ => .ok noEmailEvent) timeoutWorld
        ⟨"raw-payload-c10", some "t=2,v1=good"⟩) ≠ some 200 := by
  refine ⟨by decide, by rfl, by decide⟩

/-- C10 as amended: a verified checkout.session.completed event carrying
no customer email (neither customer_details.email nor customer_email)
dispatches no email under every outcome of the external calls; the
status is 200 exactly in the case where the line-item fetch succeeds,
since that fetch precedes the email check and is outside any catch, so
its failure escapes without any 200. -/
theorem webhook_no_email_address_no_send (verify : Verifier) (w : StripeWorld)
    (req : WebhookRequest) (evt : StripeEvent)
    (hok : verify req.body req.sigHeader = .ok evt)
    (hty : evt.type = "checkout.session.completed")
    (hmail : emailOf evt.obj = none) :
    (∀ effs, respEffects (stripeWebhookHandler verify w req) = some effs →
      ∀ e ∈ effs, e.isEmail = false) ∧
    (∀ items, w.listLineItems evt.obj.id = .ok items →
      respStatus (stripeWebhookHandler verify w req) = some 200) := by
  cases hli : w.listLineItems evt.obj.id with
  | error err =>
    constructor
    · intro effs heffs
      simp [stripeWebhookHandler, hok, hty, hmail, hli, respEffects] at heffs
    · intro items h
      exact Except.noConfusion h
  | ok items0 =>
    cases hsr : evt.obj.shipping_cost_shipping_rate with
    | none =>
      constructor
      · intro effs heffs e he
        simp [stripeWebhookHandler, hok, hty, hmail, hli, hsr, respEffects] at heffs
        subst heffs
        cases e <;> first | rfl | simp_all [Effect.isEmail]
      · intro items h
        simp [stripeWebhookHandler, hok, hty, hmail, hli, hsr, respStatus]
    | some rid =>
      by_cases hr : rid = "" <;>
      · constructor
        · intro effs heffs e he
          simp [stripeWebhookHandler, hok, hty, hmail, hli, hsr, hr, respEffects] at heffs
          subst heffs
          cases e <;> first | rfl | simp_all [Effect.isEmail]
        · intro items h
          simp [stripeWebhookHandler, hok, hty, hmail, hli, hsr, hr, respStatus]

/-- Concrete run of webhook_no_email_address_no_send on a completed
session with no derivable email, in a world whose line-item fetch
succeeds: no email effect and status 200. -/
theorem webhook_no_email_address_no_send_witness :
    (∀ effs, respEffects (stripeWebhookHandler
        (fun _ _ => .ok ⟨"checkout.session.completed", emptySession⟩)
        (emailFailWorld emptySession) ⟨"raw-payload", some "t=1,v1=good"⟩) = some effs →
      ∀ e ∈ effs, e.isEmail = false) ∧
    respStatus (stripeWebhookHandler
        (fun _ _ => .ok ⟨"checkout.session.completed", emptySession⟩)
        (emailFailWorld emptySession) ⟨"raw-payload", some "t=1,v1=good"⟩) = some 200 := by
  have h := webhook_no_email_address_no_send
    (fun _ _ => .ok ⟨"checkout.session.completed", emptySession⟩)
    (emailFailWorld emptySession) ⟨"raw-payload", some "t=1,v1=good"⟩
    ⟨"checkout.session.completed", emptySession⟩ rfl rfl (by decide)
  exact ⟨h.1, h.2 [] rfl⟩

/-- Generated order numbers are never empty, hence always truthy in the
JS fallback chains. -/
lemma newOrderNumber_ne_empty (y m d : Nat) (rand : String) :
    newOrderNumber y m d rand ≠ "" := by
  intro h
  have h2 : (newOrderNumber y m d rand).length = 0 := by rw [h]; rfl
  unfold newOrderNumber at h2
  simp only [String.length_append] at h2
  rw [show ("CL-" : String).length = 3 from rfl] at h2
  omega

/-- Every session-creation call a creator issues carries the generated
order number both as client_reference_id and as metadata.order_number. -/
lemma createSessionCore_params (env : Env) (orderNumber : String)
    (create : SessionCreateParams → Except String CreatedSession)
    (origin : String) (basePath : Option String) (items : List CartLine)
    (opts : Option Int → List String) (resp : HttpResponse) (q : SessionCreateParams)
    (h : createSessionCore env orderNumber create origin basePath items opts = (resp, some q)) :
    q.client_reference_id = orderNumber ∧ q.metadata_order_number = orderNumber := by
  simp only [createSessionCore] at h
  split at h
  · simp at h
  · split at h <;> simp only [Prod.mk.injEq, Option.some.injEq] at h <;>
      rw [← h.2] <;> exact ⟨rfl, rfl⟩

/-- Lift of createSessionCore_params through the method and body
validation of the country-aware creator. -/
lemma createCheckoutGeoHandler_params (env : Env) (orderNumber : String)
    (create : SessionCreateParams → Except String CreatedSession)
    (req : CheckoutRequest) (resp : HttpResponse) (q : SessionCreateParams)
    (h : createCheckoutGeoHandler env orderNumber create req = (resp, some q)) :
    q.client_reference_id = orderNumber ∧ q.metadata_order_number = orderNumber := by
  unfold createCheckoutGeoHandler createCheckoutCommon at h
  split at h
  · simp at h
  · split at h
    · simp at h
    · split at h
      · simp at h
      · split at h
        · simp at h
        · simp at h
        · split at h
          · simp at h
          · exact createSessionCore_params _ _ _ _ _ _ _ _ _ h

/-- Fixture parameters for the C2 counterexample: a session created with
order number CL-2025-10-12-ABCDE. -/
def roundtripParams : SessionCreateParams :=
  { line_items := []
    client_reference_id := "CL-2025-10-12-ABCDE"
    metadata_order_number := "CL-2025-10-12-ABCDE"
    metadata_cart := []
    shipping_options := []
    success_url := "https://example.com/success.html?session_id={CHECKOUT_SESSION_ID}"
    cancel_url := "https://example.com/cancel.html" }

/-- Stored session of the C2 counterexample, under id cs_test_a1b2c3. -/
def roundtripSession : Session :=
  storedSession "cs_test_a1b2c3" roundtripParams
    ⟨none, none, none, none, none, none, none⟩

/-- C2 counterexample: for a session created with order reference
CL-2025-10-12-ABCDE the retriever recovers that reference, but the
webhook handler of src/netlify/functions/stripe-webhook.js line 25
synthesizes CL-1B2C3 from the tail of the session id, which differs from
the creation-time reference: the round-trip equality of the claim fails
for the webhook handler. -/
theorem order_ref_roundtrip_counterexample :
    retrieveOrderRef roundtripSession = "CL-2025-10-12-ABCDE" ∧
    webhookOrderNumber roundtripSession = "CL-1B2C3" ∧
    webhookOrderNumber roundtripSession ≠ retrieveOrderRef roundtripSession := by
  decide

/-- C2 as amended: the order reference generated at creation is attached
to every session-creation call as correlation field and metadata, and is
recovered unchanged by the session retriever and by the webhook
iteration of src/unnamed/part_001; the webhook handler of
src/netlify/functions/stripe-webhook.js, however, ignores both fields
and always derives CL- plus the uppercased last 5 characters of the
session id, which need not equal the creation-time reference. -/
theorem order_ref_roundtrip_amended (y m d : Nat) (rand sid : String)
    (p : SessionCreateParams) (ex : SessionExtras)
    (hc : p.client_reference_id = newOrderNumber y m d rand)
    (_hm : p.metadata_order_number = newOrderNumber y m d rand) :
    retrieveOrderRef (storedSession sid p ex) = newOrderNumber y m d rand ∧
    webhook2OrderRef (storedSession sid p ex) = newOrderNumber y m d rand ∧
    webhookOrderNumber (storedSession sid p ex) = "CL-" ++ jsToUpper (lastChars 5 sid) ∧
    (∀ env create req resp q,
      createCheckoutGeoHandler env (newOrderNumber y m d rand) create req = (resp, some q) →
      q.client_reference_id = newOrderNumber y m d rand ∧
      q.metadata_order_number = newOrderNumber y m d rand) := by
  refine ⟨?_, ?_, rfl, ?_⟩
  · simp [retrieveOrderRef, storedSession, jsOrStr, hc, newOrderNumber_ne_empty y m d rand]
  · simp [webhook2OrderRef, storedSession, jsOrStr, hc, newOrderNumber_ne_empty y m d rand]
  · intro env create req resp q h
    exact createCheckoutGeoHandler_params env _ create req resp q h

/-- Concrete run of order_ref_roundtrip_amended with order number
CL-2025-10-12-7K3QZ and session id cs_test_a1b2c3. -/
theorem order_ref_roundtrip_amended_witness :
    retrieveOrderRef (storedSession "cs_test_a1b2c3"
        { roundtripParams with
          client_reference_id := newOrderNumber 2025 10 12 "7K3QZ"
          metadata_order_number := newOrderNumber 2025 10 12 "7K3QZ" }
        ⟨none, none, none, none, none, none, none⟩) = newOrderNumber 2025 10 12 "7K3QZ" ∧
    webhook2OrderRef (storedSession "cs_test_a1b2c3"
        { roundtripParams with
          client_reference_id := newOrderNumber 2025 10 12 "7K3QZ"
          metadata_order_number := newOrderNumber 2025 10 12 "7K3QZ" }
        ⟨none, none, none, none, none, none, none⟩) = newOrderNumber 2025 10 12 "7K3QZ" ∧
    webhookOrderNumber (storedSession "cs_test_a1b2c3"
        { roundtripParams with
          client_reference_id := newOrderNumber 2025 10 12 "7K3QZ"
          metadata_order_number := newOrderNumber 2025 10 12 "7K3QZ" }
        ⟨none, none, none, none, none, none, none⟩) = "CL-" ++ jsToUpper (lastChars 5 "cs_test_a1b2c3") := by
  have h := order_ref_roundtrip_amended 2025 10 12 "7K3QZ" "cs_test_a1b2c3"
    { roundtripParams with
      client_reference_id := newOrderNumber 2025 10 12 "7K3QZ"
      metadata_order_number := newOrderNumber 2025 10 12 "7K3QZ" }
    ⟨none, none, none, none, none, none, none⟩ rfl rfl
  exact ⟨h.1, h.2.1, h.2.2.1⟩

/-- Completed-checkout event fixture with no customer email. -/
def completedEvent : StripeEvent :=
  ⟨"checkout.session.completed", { emptySession with id := "cs_live_x9y8z7" }⟩

/-- Session fixture carrying a customer email. -/
def emailSession : Session :=
  { emptySession with
    id := "cs_live_x9y8z7"
    customer_details_email := some "jo@example.com" }

/-- C3 counterexample: on a webhook request whose signature verifies and
whose event is checkout.session.completed, a failing line-item or
session fetch does not yield 200: the handler of stripe-webhook.js lets
the rejection escape (no response at all), and the iteration of
src/unnamed/part_001 returns 500 Internal Error. -/
theorem webhook_processing_failure_counterexample :
    stripeWebhookHandler (fun _ _ => .ok completedEvent) failingWorld
        ⟨"raw-payload", some "t=1,v1=good"⟩ = .error "network down" ∧
    respStatus (stripeWebhookHandler (fun _ _ => .ok completedEvent) failingWorld
        ⟨"raw-payload", some "t=1,v1=good"⟩) ≠ some 200 ∧
    (stripeWebhookHandler2 (fun _ _ => .ok completedEvent) failingWorld
        ⟨"raw-payload", some "t=1,v1=good"⟩).1.statusCode = 500 := by
  refine ⟨by rfl, by decide, by rfl⟩

/-- C3 as amended: on a verified event, when the post-verification
processor fetch succeeds (the line-item fetch for stripe-webhook.js, the
session re-fetch for the part_001 iteration) both receiver iterations
return status 200 whatever the email API does: an email-send failure is
swallowed and never changes the status. A failing processor fetch,
however, escapes respectively as an uncaught error and as a 500. -/
theorem webhook_verified_returns_200_amended (verify : Verifier) (w : StripeWorld)
    (req : WebhookRequest) (evt : StripeEvent) (items : List RemoteLineItem) (s : Session)
    (hok : verify req.body req.sigHeader = .ok evt)
    (hli : w.listLineItems evt.obj.id = .ok items)
    (hrs : w.retrieveSession evt.obj.id = .ok s) :
    respStatus (stripeWebhookHandler verify w req) = some 200 ∧
    (stripeWebhookHandler2 verify w req).1.statusCode = 200 := by
  constructor
  · by_cases hty : evt.type = "checkout.session.completed"
    · cases hmail : emailOf evt.obj <;>
        simp [stripeWebhookHandler, hok, hty, hli, hmail, respStatus]
    · simp [stripeWebhookHandler, hok, hty, respStatus]
  · by_cases hty : evt.type = "checkout.session.completed"
    · cases hmail : emailOf s <;>
        simp [stripeWebhookHandler2, hok, hty, hrs, hmail]
    · simp [stripeWebhookHandler2, hok, hty]

/-- Concrete run of webhook_verified_returns_200_amended in a world
where the email API fails: both receiver iterations still answer 200. -/
theorem webhook_verified_returns_200_amended_witness :
    respStatus (stripeWebhookHandler
        (fun _ _ => .ok ⟨"checkout.session.completed", emailSession⟩)
        (emailFailWorld emailSession) ⟨"raw-payload", some "t=1,v1=good"⟩) = some 200 ∧
    (stripeWebhookHandler2
        (fun _ _ => .ok ⟨"checkout.session.completed", emailSession⟩)
        (emailFailWorld emailSession) ⟨"raw-payload", some "t=1,v1=good"⟩).1.statusCode = 200 :=
  webhook_verified_returns_200_amended
    (fun _ _ => .ok ⟨"checkout.session.completed", emailSession⟩)
    (emailFailWorld emailSession) ⟨"raw-payload", some "t=1,v1=good"⟩
    ⟨"checkout.session.completed", emailSession⟩ [] emailSession rfl rfl rfl

/-- C7: with every shipping rate configured (distinct, non-empty ids)
and a positive threshold, the shipping options of the country-aware
creator follow the deterministic country policy: a detected GB with
subtotal at least the threshold gets the free rate exactly once
alongside standard and express; a detected EU-set country gets only the
regional rate; any other detected country gets only the international
rate; an undetectable country gets the union of all the country
branches. -/
theorem shipping_policy (env : Env) (g : GeoHeaders) (hint : Option String) (st : Option Int)
    (f sr e u i : String)
    (hf : env.shipFreeUK = some f) (hfne : f ≠ "")
    (hs : env.shipUKStandard = some sr) (hsne : sr ≠ "")
    (he : env.shipUKExpress = some e) (hene : e ≠ "")
    (hu : env.shipEU = some u) (hune : u ≠ "")
    (hi : env.shipIntl = some i) (hine : i ≠ "")
    (hth : jsGt (freeThresh env) (some 0) = true)
    (hfs : f ≠ sr) (hfe : f ≠ e) :
    (detectCountry g hint = some "GB" → jsGe st (freeThresh env) = true →
      shippingOptionsGeo env (detectCountry g hint) st = [f, sr, e] ∧
      (shippingOptionsGeo env (detectCountry g hint) st).count f = 1) ∧
    (∀ c, detectCountry g hint = some c → EU_SET.contains c = true →
      shippingOptionsGeo env (detectCountry g hint) st = [u]) ∧
    (∀ c, detectCountry g hint = some c → c ≠ "GB" → EU_SET.contains c = false →
      shippingOptionsGeo env (detectCountry g hint) st = [i]) ∧
    (detectCountry g hint = none →
      ∀ ceu co, EU_SET.contains ceu = true → co ≠ "GB" → EU_SET.contains co = false →
        shippingOptionsGeo env (detectCountry g hint) st =
          shippingOptionsGeo env (some "GB") st ++ shippingOptionsGeo env (some ceu) st
            ++ shippingOptionsGeo env (some co) st) := by
  refine ⟨fun hgb hge => ?_, fun c hc hceu => ?_, fun c hc hcgb hcne => ?_,
          fun hnone ceu co hceu hcogb hcone => ?_⟩
  · rw [hgb]
    have hcond : freeShipCond env st = true := by simp [freeShipCond, hth, hge]
    constructor
    · simp [shippingOptionsGeo, hcond, pushRate, hf, hs, he, hfne, hsne, hene]
    · simp [shippingOptionsGeo, hcond, pushRate, hf, hs, he, hfne, hsne, hene,
        List.count_cons, Ne.symm hfs, Ne.symm hfe]
  · rw [hc]
    have hcgb : c ≠ "GB" := by
      intro hh
      subst hh
      exact absurd hceu (by decide)
    have hmem : c ∈ EU_SET := by simpa using hceu
    simp [shippingOptionsGeo, hcgb, hmem, pushRate, hu, hune]
  · rw [hc]
    have hnmem : c ∉ EU_SET := by simpa using hcne
    simp [shippingOptionsGeo, hcgb, hnmem, pushRate, hi, hine]
  · rw [hnone]
    have hceugb : ceu ≠ "GB" := by
      intro hh
      subst hh
      exact absurd hceu (by decide)
    have hmceu : ceu ∈ EU_SET := by simpa using hceu
    have hnco : co ∉ EU_SET := by simpa using hcone
    cases hcond : freeShipCond env st <;>
      simp [shippingOptionsGeo, hcond, pushRate, hf, hs, he, hu, hi,
        hfne, hsne, hene, hune, hine, hmceu, hceugb, hcogb, hnco]

/-- Fully configured environment fixture for the shipping policy. -/
def shipEnv : Env :=
  { siteUrl := "https://clarity-shop.netlify.app"
    freeShipThresholdPence := some "7500"
    shipFreeUK := some "shr_free_uk"
    shipUKStandard := some "shr_uk_std"
    shipUKExpress := some "shr_uk_exp"
    shipEU := some "shr_eu"
    shipIntl := some "shr_intl" }

/-- Concrete runs of shipping_policy: a GB request over the threshold, a
DE request, a US request, and an undetectable country. -/
theorem shipping_policy_witness :
    detectCountry ⟨some "gb", none⟩ none = some "GB" ∧
    shippingOptionsGeo shipEnv (detectCountry ⟨some "gb", none⟩ none) (some 9998) =
      ["shr_free_uk", "shr_uk_std", "shr_uk_exp"] ∧
    (shippingOptionsGeo shipEnv (detectCountry ⟨some "gb", none⟩ none) (some 9998)).count
      "shr_free_uk" = 1 ∧
    shippingOptionsGeo shipEnv (detectCountry ⟨some "de", none⟩ none) (some 100) = ["shr_eu"] ∧
    shippingOptionsGeo shipEnv (detectCountry ⟨some "us", none⟩ none) (some 100) = ["shr_intl"] ∧
    shippingOptionsGeo shipEnv (detectCountry ⟨none, none⟩ none) (some 9998) =
      shippingOptionsGeo shipEnv (some "GB") (some 9998)
        ++ shippingOptionsGeo shipEnv (some "DE") (some 9998)
        ++ shippingOptionsGeo shipEnv (some "US") (some 9998) := by
  have h1 := shipping_policy shipEnv ⟨some "gb", none⟩ none (some 9998)
    "shr_free_uk" "shr_uk_std" "shr_uk_exp" "shr_eu" "shr_intl"
    rfl (by decide) rfl (by decide) rfl (by decide) rfl (by decide) rfl (by decide)
    (by decide) (by decide) (by decide)
  have h2 := shipping_policy shipEnv ⟨some "de", none⟩ none (some 100)
    "shr_free_uk" "shr_uk_std" "shr_uk_exp" "shr_eu" "shr_intl"
    rfl (by decide) rfl (by decide) rfl (by decide) rfl (by decide) rfl (by decide)
    (by decide) (by decide) (by decide)
  have h3 := shipping_policy shipEnv ⟨some "us", none⟩ none (some 100)
    "shr_free_uk" "shr_uk_std" "shr_uk_exp" "shr_eu" "shr_intl"
    rfl (by decide) rfl (by decide) rfl (by decide) rfl (by decide) rfl (by decide)
    (by decide) (by decide) (by decide)
  have h4 := shipping_policy shipEnv ⟨none, none⟩ none (some 9998)
    "shr_free_uk" "shr_uk_std" "shr_uk_exp" "shr_eu" "shr_intl"
    rfl (by decide) rfl (by decide) rfl (by decide) rfl (by decide) rfl (by decide)
    (by decide) (by decide) (by decide)
  refine ⟨by decide, (h1.1 (by decide) (by decide)).1, (h1.1 (by decide) (by decide)).2,
    h2.2.1 "DE" (by decide) (by decide),
    h3.2.2.1 "US" (by decide) (by decide) (by decide),
    h4.2.2.2 (by decide) "DE" "US" (by decide) (by decide) (by decide)⟩

/-- Environment fixture with no shipping rates configured. -/
def plainEnv : Env :=
  { siteUrl := "https://clarity-shop.netlify.app"
    freeShipThresholdPence := none
    shipFreeUK := none
    shipUKStandard := none
    shipUKExpress := none
    shipEU := none
    shipIntl := none }

/-- Processor stub that is never reached in the validation fixtures. -/
def noCreate : SessionCreateParams → Except String CreatedSession :=
  fun _ => .error "unreachable"

/-- POST request whose body is not valid JSON. -/
def malformedReq : CheckoutRequest :=
  { httpMethod := "POST"
    origin := "https://shajidissa.github.io"
    body := .parseError "Unexpected end of JSON input"
    geo := ⟨none, none⟩ }

/-- POST request whose body parses but carries an empty items array. -/
def emptyItemsReq : CheckoutRequest :=
  { httpMethod := "POST"
    origin := "https://shajidissa.github.io"
    body := .obj { items := .array [], basePath := none, hintCountry := none }
    geo := ⟨none, none⟩ }

/-- C8 counterexample: a POST request with a malformed (unparseable)
JSON body is malformed input, yet both creator iterations answer 500
from the catch block, not the 400 the claim requires; no session is
created either way. -/
theorem create_checkout_malformed_counterexample :
    (createCheckoutHandler plainEnv "CL-2025-10-12-7K3QZ" noCreate malformedReq).1.statusCode
      = 500 ∧
    (createCheckoutHandler plainEnv "CL-2025-10-12-7K3QZ" noCreate malformedReq).1.statusCode
      ≠ 400 ∧
    (createCheckoutHandler plainEnv "CL-2025-10-12-7K3QZ" noCreate malformedReq).2 = none ∧
    (createCheckoutGeoHandler plainEnv "CL-2025-10-12-7K3QZ" noCreate malformedReq).1.statusCode
      = 500 ∧
    (createCheckoutGeoHandler plainEnv "CL-2025-10-12-7K3QZ" noCreate malformedReq).2 = none := by
  refine ⟨by rfl, by decide, by rfl, by rfl, by rfl⟩

/-- C8 as amended: a POST request whose items field is missing, not an
array, or the empty array gets 400 with no session-creation call, from
both creator iterations; a POST request whose body fails to parse as
JSON gets 500 (not 400), also with no session-creation call. -/
theorem create_checkout_validation (env : Env) (orderNumber : String)
    (create : SessionCreateParams → Except String CreatedSession) (req : CheckoutRequest)
    (hm : req.httpMethod = "POST") :
    (∀ o, req.body = .obj o →
      (o.items = .missing ∨ o.items = .nonArray ∨ o.items = .array []) →
      createCheckoutHandler env orderNumber create req =
        ({ statusCode := 400, body := "No items in request." }, none) ∧
      createCheckoutGeoHandler env orderNumber create req =
        ({ statusCode := 400, body := "No items in request." }, none)) ∧
    (∀ msg, req.body = .parseError msg →
      createCheckoutHandler env orderNumber create req =
        ({ statusCode := 500, body := jsonError msg }, none) ∧
      createCheckoutGeoHandler env orderNumber create req =
        ({ statusCode := 500, body := jsonError msg }, none)) := by
  constructor
  · intro o hb hit
    rcases hit with hit | hit | hit <;>
      exact ⟨by simp [createCheckoutHandler, createCheckoutCommon, hm, hb, hit],
             by simp [createCheckoutGeoHandler, createCheckoutCommon, hm, hb, hit]⟩
  · intro msg hb
    exact ⟨by simp [createCheckoutHandler, createCheckoutCommon, hm, hb],
           by simp [createCheckoutGeoHandler, createCheckoutCommon, hm, hb]⟩

/-- Concrete runs of create_checkout_validation: an empty cart gets 400
and no session, a malformed body gets 500 and no session. -/
theorem create_checkout_validation_witness :
    createCheckoutHandler plainEnv "CL-X" noCreate emptyItemsReq =
      ({ statusCode := 400, body := "No items in request." }, none) ∧
    createCheckoutGeoHandler plainEnv "CL-X" noCreate emptyItemsReq =
      ({ statusCode := 400, body := "No items in request." }, none) ∧
    createCheckoutHandler plainEnv "CL-X" noCreate malformedReq =
      ({ statusCode := 500, body := jsonError "Unexpected end of JSON input" }, none) := by
  have h1 := (create_checkout_validation plainEnv "CL-X" noCreate emptyItemsReq rfl).1
    { items := .array [], basePath := none, hintCountry := none } rfl (Or.inr (Or.inr rfl))
  have h2 := (create_checkout_validation plainEnv "CL-X" noCreate malformedReq rfl).2
    "Unexpected end of JSON input" rfl
  exact ⟨h1.1, h1.2, h2.1⟩

end StripeFunctions
